import Mathlib

/-!
Shallow embedding of `src/salesforce/server.py` (MCP-Salesforce).

The server is a tool dispatcher over a backing `simple_salesforce` client.
We model:
  * Python values flowing through tool arguments and adapter results as a
    `Json` inductive (Python dicts are insertion-ordered association lists);
  * the backing adapter (`self.sf`) as a pure total oracle `Adapter` whose
    operations are typed by the shapes the source relies on
    (e.g. `query_all` returns an envelope with a `records` list,
    `update` returns an integer status code);
  * every invocation of an adapter operation is recorded in a trace
    (`List AdapterOp`), so "the adapter was never contacted" is `trace = []`;
  * Python exceptions as `PyError`; a raised exception is `Except.error`;
  * `SalesforceClient` state (`sf`, `sobjects_cache`) as `ClientState`;
  * `handle_call_tool` as a function
    `ClientState → String → Args → DispatchOut` mirroring the elif chain.

Messages raised by the Python runtime itself (AttributeError / TypeError
texts) are reproduced in their CPython wording where the source makes them
reachable; no theorem depends on the exact wording of runtime messages.
-/

/-- Json mirrors the Python values that appear in tool arguments and
adapter responses: None, bool, int, str, list, dict (insertion ordered). -/
inductive Json where
  | null : Json
  | bool (b : Bool) : Json
  | num (n : Int) : Json
  | str (s : String) : Json
  | arr (l : List Json) : Json
  | obj (l : List (String × Json)) : Json

/-- Record is a Python dict with string keys, in insertion order. -/
abbrev Rec := List (String × Json)

/-- Args is the `arguments: dict[str, Any]` mapping of a tool invocation. -/
abbrev Args := List (String × Json)

/-- pyTruthy models Python truthiness (`bool(x)`): None, False, 0, "",
empty list and empty dict are falsy. -/
def pyTruthy : Json → Bool
  | .null => false
  | .bool b => b
  | .num n => n != 0
  | .str s => !s.isEmpty
  | .arr l => !l.isEmpty
  | .obj l => !l.isEmpty

/-- argGet models `arguments.get(k)`: the stored value, or None if the
key is absent. -/
def argGet (args : Args) (k : String) : Json :=
  (args.lookup k).getD .null

/-- argGetD models `arguments.get(k, d)`: the stored value, or `d` if the
key is absent. -/
def argGetD (args : Args) (k : String) (d : Json) : Json :=
  (args.lookup k).getD d

/-- pyTypeName gives Python type names, used in runtime error messages. -/
def pyTypeName : Json → String
  | .null => "NoneType"
  | .bool _ => "bool"
  | .num _ => "int"
  | .str _ => "str"
  | .arr _ => "list"
  | .obj _ => "dict"

/-- hexDigit gives the lowercase hex digit for `n % 16`. -/
def hexDigit (n : Nat) : Char :=
  "0123456789abcdef".data.getD (n % 16) '0'

/-- hex4 renders a code point as four lowercase hex digits (for \u escapes). -/
def hex4 (n : Nat) : String :=
  String.mk [hexDigit (n / 4096), hexDigit (n / 256), hexDigit (n / 16), hexDigit n]

/-- jsonEscapeChar escapes one character the way `json.dumps` does with its
default `ensure_ascii=True`. -/
def jsonEscapeChar (c : Char) : String :=
  if c = '"' then "\\\""
  else if c = '\\' then "\\\\"
  else if c = '\n' then "\\n"
  else if c = '\r' then "\\r"
  else if c = '\t' then "\\t"
  else if c.toNat = 8 then "\\b"
  else if c.toNat = 12 then "\\f"
  else if c.toNat < 32 then "\\u" ++ hex4 c.toNat
  else if c.toNat < 127 then String.mk [c]
  else if c.toNat < 65536 then "\\u" ++ hex4 c.toNat
  else
    let v := c.toNat - 65536
    "\\u" ++ hex4 (55296 + v / 1024) ++ "\\u" ++ hex4 (56320 + v % 1024)

/-- jsonQuote renders a JSON string literal as `json.dumps` does. -/
def jsonQuote (s : String) : String :=
  "\"" ++ String.join (s.data.map jsonEscapeChar) ++ "\""

/-- pad gives `n` spaces of indentation. -/
def pad (n : Nat) : String :=
  String.mk (List.replicate n ' ')

mutual

/-- jsonDumpsAt models `json.dumps(x, indent=2)` at nesting level `ind`. -/
def jsonDumpsAt (ind : Nat) : Json → String
  | .null => "null"
  | .bool b => if b then "true" else "false"
  | .num n => toString n
  | .str s => jsonQuote s
  | .arr [] => "[]"
  | .arr (j :: rest) =>
      "[\n" ++ String.intercalate ",\n" (jsonDumpsList (ind + 2) (j :: rest))
        ++ "\n" ++ pad ind ++ "]"
  | .obj [] => "\x7b\x7d"
  | .obj (kv :: rest) =>
      "\x7b\n" ++ String.intercalate ",\n" (jsonDumpsObj (ind + 2) (kv :: rest))
        ++ "\n" ++ pad ind ++ "\x7d"

/-- jsonDumpsList renders array elements, each on its own indented line. -/
def jsonDumpsList (ind : Nat) : List Json → List String
  | [] => []
  | j :: rest => (pad ind ++ jsonDumpsAt ind j) :: jsonDumpsList ind rest

/-- jsonDumpsObj renders object entries, each on its own indented line. -/
def jsonDumpsObj (ind : Nat) : List (String × Json) → List String
  | [] => []
  | (k, j) :: rest =>
      (pad ind ++ jsonQuote k ++ ": " ++ jsonDumpsAt ind j) :: jsonDumpsObj ind rest

end

/-- jsonDumps2 models `json.dumps(x, indent=2)` as used throughout the server. -/
def jsonDumps2 (j : Json) : String :=
  jsonDumpsAt 0 j

mutual

/-- pyStr models Python `str(x)` (the conversion used by f-strings). -/
def pyStr : Json → String
  | .null => "None"
  | .bool b => if b then "True" else "False"
  | .num n => toString n
  | .str s => s
  | .arr l => "[" ++ String.intercalate ", " (pyReprList l) ++ "]"
  | .obj l => "\x7b" ++ String.intercalate ", " (pyReprObj l) ++ "\x7d"

/-- pyRepr models Python `repr(x)` for elements nested inside containers
(string escaping inside repr is not reproduced; no theorem depends on it). -/
def pyRepr : Json → String
  | .null => "None"
  | .bool b => if b then "True" else "False"
  | .num n => toString n
  | .str s => "\x27" ++ s ++ "\x27"
  | .arr l => "[" ++ String.intercalate ", " (pyReprList l) ++ "]"
  | .obj l => "\x7b" ++ String.intercalate ", " (pyReprObj l) ++ "\x7d"

/-- pyReprList renders list elements by `repr`. -/
def pyReprList : List Json → List String
  | [] => []
  | j :: rest => pyRepr j :: pyReprList rest

/-- pyReprObj renders dict entries by `repr`. -/
def pyReprObj : List (String × Json) → List String
  | [] => []
  | (k, j) :: rest => ("\x27" ++ k ++ "\x27: " ++ pyRepr j) :: pyReprObj rest

end

/-- pyTitle models Python `str.title()` on the two values the source applies
it to ("profile", "permission set"): capitalize each space-separated word. -/
def pyTitle (s : String) : String :=
  String.intercalate " " ((s.splitOn " ").map String.capitalize)

/-- pyCharLower models ASCII case folding of one character. Python
`str.lower()` is full Unicode; the identifiers compared in this server
(Salesforce API field names) are ASCII, which this folding matches. -/
def pyCharLower (c : Char) : Char :=
  if 'A' ≤ c ∧ c ≤ 'Z' then Char.ofNat (c.toNat + 32) else c

/-- pyLower models Python `s.lower()` (ASCII case folding, see above). -/
def pyLower (s : String) : String :=
  String.mk (s.data.map pyCharLower)

/-- pyTake models Python `s[:n]`: the first `n` characters. -/
def pyTake (s : String) (n : Nat) : String :=
  String.mk (s.data.take n)

/-- pyLen models Python `len(s)`: the number of characters. -/
def pyLen (s : String) : Nat :=
  s.data.length

/-- containsSubstrCL decides whether `needle` occurs contiguously in `hay`
(Python `needle in hay` on strings), on character lists. -/
def containsSubstrCL (needle : List Char) : List Char → Bool
  | [] => needle.isEmpty
  | c :: rest => needle.isPrefixOf (c :: rest) || containsSubstrCL needle rest

/-- containsSubstr models Python `needle in hay` for strings. -/
def containsSubstr (hay needle : String) : Bool :=
  containsSubstrCL needle.data hay.data

/-- PyError models the Python exceptions the server can raise or catch.
Each carries the message `str(e)` would produce. -/
inductive PyError where
  | valueError (msg : String) : PyError
  | attributeError (msg : String) : PyError
  | typeError (msg : String) : PyError
  | keyError (msg : String) : PyError
  | indexError (msg : String) : PyError

/-- msg extracts `str(e)` from a modeled exception. -/
def PyError.msg : PyError → String
  | .valueError m => m
  | .attributeError m => m
  | .typeError m => m
  | .keyError m => m
  | .indexError m => m

/-- TextContent models `types.TextContent(type="text", text=...)`. -/
structure TextContent where
  text : String

/-- connErr is the ValueError raised by every connection guard in the source. -/
def connErr : PyError :=
  .valueError "Salesforce connection not established."

/-- noneAttrErr is the AttributeError CPython raises for `None.<attr>`. -/
def noneAttrErr (attr : String) : PyError :=
  .attributeError ("\x27NoneType\x27 object has no attribute \x27" ++ attr ++ "\x27")

/-- RawField models one entry of `describe()['fields']`, with the keys the
server reads. -/
structure RawField where
  label : String
  name : String
  updateable : Bool
  type : String
  length : Int
  picklistValues : Json
  nillable : Bool
  unique : Bool
  externalId : Bool
  createable : Bool
  custom : Bool
  calculated : Bool
  defaultedOnCreate : Bool
  dependentPicklist : Bool
  referenceTo : Json
  relationshipName : Json
  filterable : Bool
  sortable : Bool

/-- DescribeResult models `sf_object.describe()`, with the keys the server
reads (object-level permission flags and the field list). -/
structure DescribeResult where
  createable : Bool
  deletable : Bool
  queryable : Bool
  updateable : Bool
  retrieveable : Bool
  fields : List RawField

/-- QueryResult models the envelope returned by `sf.query` / `sf.query_all`:
`{"totalSize": ..., "done": ..., "records": [...]}`. -/
structure QueryResult where
  totalSize : Int
  done : Bool
  records : List Rec

/-- SObjectInfo models one entry of `sf.describe()['sobjects']`. -/
structure SObjectInfo where
  name : String

/-- queryResultJson rebuilds the full result envelope as the Json value that
`json.dumps(results, indent=2)` serializes. -/
def queryResultJson (qr : QueryResult) : Json :=
  .obj [("totalSize", .num qr.totalSize), ("done", .bool qr.done),
        ("records", .arr (qr.records.map Json.obj))]

/-- AdapterOp records one invocation of a backing-adapter operation, with
the argument values the server passed. Dynamic values coming from tool
arguments are recorded as the Json values passed. -/
inductive AdapterOp where
  | query_all (q : Json) : AdapterOp
  | search (s : Json) : AdapterOp
  | query (q : String) : AdapterOp
  | describe (obj : Json) : AdapterOp
  | describe_global : AdapterOp
  | get (obj id : Json) : AdapterOp
  | create (obj data : Json) : AdapterOp
  | update (obj id data : Json) : AdapterOp
  | delete (obj id : Json) : AdapterOp
  | toolingexecute (action method data : Json) : AdapterOp
  | apexecute (action method data : Json) : AdapterOp
  | restful (path method params data : Json) : AdapterOp
  | bulk_insert (obj data : Json) : AdapterOp
  | bulk_update (obj data : Json) : AdapterOp
  | bulk_delete (obj : Json) (data : List Rec) : AdapterOp

/-- Adapter is the backing `simple_salesforce` client, modeled as a pure
total oracle. Operation results are typed by the shapes the server relies
on (the spec treats the adapter as an external collaborator returning
structured results). -/
structure Adapter where
  query_all : Json → QueryResult
  search : Json → Json
  query : String → QueryResult
  describe_object : Json → DescribeResult
  describe_global : List SObjectInfo
  get : Json → Json → Json
  create : Json → Json → Json
  update : Json → Json → Json → Int
  delete : Json → Json → Int
  toolingexecute : Json → Json → Json → Json
  apexecute : Json → Json → Json → Json
  restful : Json → Json → Json → Json → Json
  bulk_insert : Json → Json → Json
  bulk_update : Json → Json → Json
  bulk_delete : Json → List Rec → Json

/-- Cache is `SalesforceClient.sobjects_cache`: object name → the filtered
field list stored for it (a Json array). -/
abbrev Cache := List (String × Json)

/-- ClientState is the mutable state of the `SalesforceClient` instance. -/
structure ClientState where
  sf : Option Adapter
  cache : Cache

/-- Trace is the sequence of adapter operations performed by a call. -/
abbrev Trace := List AdapterOp

/-- step sequences a possibly-raising computation with its continuation,
accumulating the trace of adapter calls performed so far (Python semantics:
calls made before an exception have already happened). -/
def step {α β : Type} (x : Except PyError α × Trace)
    (f : α → Except PyError β × Trace) : Except PyError β × Trace :=
  match x with
  | (.error e, t) => (.error e, t)
  | (.ok a, t) => let r := f a; (r.1, t ++ r.2)

/-- liftE lifts a pure possibly-raising computation into a traced one. -/
def liftE {α : Type} (x : Except PyError α) : Except PyError α × Trace :=
  (x, [])

/-- pyDictGetE models `j.get(k)` (single-argument dict get, default None):
AttributeError when `j` is not a dict. -/
def pyDictGetE (j : Json) (k : String) : Except PyError Json :=
  match j with
  | .obj kvs => .ok ((kvs.lookup k).getD .null)
  | _ => .error (.attributeError
      ("\x27" ++ pyTypeName j ++ "\x27 object has no attribute \x27get\x27"))

/-- pyDictGetDE models `j.get(k, d)` with an explicit default. -/
def pyDictGetDE (j : Json) (k : String) (d : Json) : Except PyError Json :=
  match j with
  | .obj kvs => .ok ((kvs.lookup k).getD d)
  | _ => .error (.attributeError
      ("\x27" ++ pyTypeName j ++ "\x27 object has no attribute \x27get\x27"))

/-- pyKeyE models `j[k]` for a string key. -/
def pyKeyE (j : Json) (k : String) : Except PyError Json :=
  match j with
  | .obj kvs =>
      match kvs.lookup k with
      | some v => .ok v
      | none => .error (.keyError ("\x27" ++ k ++ "\x27"))
  | .arr _ => .error (.typeError "list indices must be integers or slices, not str")
  | _ => .error (.typeError ("\x27" ++ pyTypeName j ++ "\x27 object is not subscriptable"))

/-- pyIdxE models `j[i]` for a non-negative integer index. -/
def pyIdxE (j : Json) (i : Nat) : Except PyError Json :=
  match j with
  | .arr l =>
      match l.get? i with
      | some v => .ok v
      | none => .error (.indexError "list index out of range")
  | .obj _ => .error (.keyError (toString i))
  | _ => .error (.typeError ("\x27" ++ pyTypeName j ++ "\x27 object is not subscriptable"))

/-- pySubE models Python `a - b` on the numeric values the limits payload
carries. -/
def pySubE (a b : Json) : Except PyError Json :=
  match a, b with
  | .num x, .num y => .ok (.num (x - y))
  | _, _ => .error (.typeError ("unsupported operand type(s) for -: \x27"
      ++ pyTypeName a ++ "\x27 and \x27" ++ pyTypeName b ++ "\x27"))

/-- pyIterE models `for x in j`: TypeError when `j` is not iterable as a
list (the only iteration the server performs on dynamic values). -/
def pyIterE (j : Json) : Except PyError (List Json) :=
  match j with
  | .arr l => .ok l
  | _ => .error (.typeError ("\x27" ++ pyTypeName j ++ "\x27 object is not iterable"))

/-- GofOut is the outcome of `SalesforceClient.get_object_fields`: the
returned (or raised) value, the client state after the call, and the
adapter operations performed. -/
structure GofOut where
  res : Except PyError String
  st : ClientState
  trace : Trace

/-- FdOut is the outcome of `SalesforceClient.get_field_details` (which
never mutates the client state). -/
structure FdOut where
  res : Except PyError String
  trace : Trace

/-- filteredFieldJson is the six-attribute dict that
`SalesforceClient.get_object_fields` builds for each described field. -/
def filteredFieldJson (f : RawField) : Json :=
  .obj [("label", .str f.label), ("name", .str f.name),
        ("updateable", .bool f.updateable), ("type", .str f.type),
        ("length", .num f.length), ("picklistValues", f.picklistValues)]

/-- get_object_fields models `SalesforceClient.get_object_fields`:
raise if disconnected; on a cache miss describe the object, filter each
field to six attributes and store the list; return
`json.dumps(self.sobjects_cache[object_name], indent=2)`.
`getattr(self.sf, object_name)` requires a string attribute name; only
string keys can ever have been stored, so a non-string name always takes
the cache-miss path and raises TypeError at the getattr. -/
def get_object_fields (st : ClientState) (objectName : Json) : GofOut :=
  match st.sf with
  | none => ⟨.error connErr, st, []⟩
  | some a =>
      match objectName with
      | .str obj =>
          match st.cache.lookup obj with
          | some _ =>
              ⟨.ok (jsonDumps2 (((st.cache.lookup obj)).getD .null)), st, []⟩
          | none =>
              let fields := (a.describe_object objectName).fields
              let filtered := Json.arr (fields.map filteredFieldJson)
              let cache2 := st.cache ++ [(obj, filtered)]
              ⟨.ok (jsonDumps2 (((cache2.lookup obj)).getD .null)),
               ⟨st.sf, cache2⟩, [.describe objectName]⟩
      | _ => ⟨.error (.typeError "attribute name must be string"), st, []⟩

/-- fieldDetailsJson is the sixteen-attribute dict `get_field_details`
builds for a matched field. -/
def fieldDetailsJson (f : RawField) : Json :=
  .obj [("name", .str f.name), ("label", .str f.label), ("type", .str f.type),
        ("length", .num f.length), ("required", .bool (!f.nillable)),
        ("unique", .bool f.unique), ("external_id", .bool f.externalId),
        ("updateable", .bool f.updateable), ("createable", .bool f.createable),
        ("custom", .bool f.custom), ("calculated", .bool f.calculated),
        ("defaulted_on_create", .bool f.defaultedOnCreate),
        ("dependency_following", .bool f.dependentPicklist),
        ("picklist_values", f.picklistValues),
        ("referenced_to", f.referenceTo),
        ("relationship_name", f.relationshipName)]

/-- fieldDetailsMissJson is the structured miss payload `get_field_details`
returns when no field name matches case-insensitively. -/
def fieldDetailsMissJson (objectName fieldName : Json) (sim : List String) : Json :=
  .obj [("error", .str ("Field \x27" ++ pyStr fieldName ++ "\x27 not found in object \x27"
          ++ pyStr objectName ++ "\x27")),
        ("similar_fields", .arr (sim.map Json.str))]

/-- caughtDetailsJson is the payload the method-level `except` clause of
`get_field_details` returns for an exception raised inside its try block. -/
def caughtDetailsJson (e : PyError) : Json :=
  .obj [("error", .str ("Failed to get field details: " ++ e.msg))]

/-- similarFieldsOf is the remediation list `get_field_details` builds on a
miss: the names of the described fields whose lowercased name contains the
lowercased requested name as a substring, truncated to the first 10. -/
def similarFieldsOf (a : Adapter) (obj fld : String) : List String :=
  ((((a.describe_object (.str obj)).fields).filter
      (fun f => containsSubstr (pyLower f.name) (pyLower fld))).map
    (fun f => f.name)).take 10

/-- get_field_details models `SalesforceClient.get_field_details`: raise if
disconnected (before the try block); inside the try, describe the object
(the cache is never consulted), scan for the first case-insensitive exact
name match, and on a miss return a payload with up to 10 case-insensitive
substring matches; any exception inside the try is returned as an error
payload. With a non-string object name the getattr raises before the
describe; with a non-string field name and a non-empty field list, the
first loop iteration raises at `field_name.lower()` after the describe
(an empty field list never evaluates the comparison). -/
def get_field_details (st : ClientState) (objectName fieldName : Json) : FdOut :=
  match st.sf with
  | none => ⟨.error connErr, []⟩
  | some a =>
      match objectName with
      | .str obj =>
          let fields := (a.describe_object objectName).fields
          match fields, fieldName with
          | [], _ =>
              ⟨.ok (jsonDumps2 (fieldDetailsMissJson objectName fieldName [])),
               [.describe objectName]⟩
          | _ :: _, .str fld =>
              match fields.find? (fun f => pyLower f.name == pyLower fld) with
              | some f =>
                  ⟨.ok (jsonDumps2 (fieldDetailsJson f)), [.describe objectName]⟩
              | none =>
                  ⟨.ok (jsonDumps2 (fieldDetailsMissJson objectName fieldName
                      (similarFieldsOf a obj fld))), [.describe objectName]⟩
          | _ :: _, _ =>
              ⟨.ok (jsonDumps2 (caughtDetailsJson
                  (.attributeError ("\x27" ++ pyTypeName fieldName
                    ++ "\x27 object has no attribute \x27lower\x27")))),
               [.describe objectName]⟩
      | _ =>
          ⟨.ok (jsonDumps2 (caughtDetailsJson
              (.typeError "attribute name must be string"))), []⟩

/-- getattrErr is the TypeError CPython raises when `getattr` receives a
non-string attribute name (wording abbreviated; no theorem depends on it). -/
def getattrErr : PyError := .typeError "attribute name must be string"

/-- BranchOut is the outcome of one elif branch of `handle_call_tool`:
the returned content list (or the exception raised) and the adapter
operations performed. -/
abbrev BranchOut := Except PyError (List TextContent) × Trace

/-- branch_run_soql_query models the `run_soql_query` branch: guard the
`query` argument, then call `sf_client.sf.query_all(query)` with no
connection check (a disconnected client raises AttributeError on `None`). -/
def branch_run_soql_query (sf : Option Adapter) (args : Args) : BranchOut :=
  let query := argGet args "query"
  if !pyTruthy query then
    (.error (.valueError "Missing \x27query\x27 argument"), [])
  else
    match sf with
    | none => (.error (noneAttrErr "query_all"), [])
    | some a =>
        (.ok [⟨"SOQL Query Results (JSON):\n"
            ++ jsonDumps2 (queryResultJson (a.query_all query))⟩],
         [.query_all query])

/-- branch_run_sosl_search models the `run_sosl_search` branch: guard the
`search` argument, then call `sf_client.sf.search(search)` with no
connection check. -/
def branch_run_sosl_search (sf : Option Adapter) (args : Args) : BranchOut :=
  let search := argGet args "search"
  if !pyTruthy search then
    (.error (.valueError "Missing \x27search\x27 argument"), [])
  else
    match sf with
    | none => (.error (noneAttrErr "search"), [])
    | some a =>
        (.ok [⟨"SOSL Search Results (JSON):\n" ++ jsonDumps2 (a.search search)⟩],
         [.search search])

/-- branch_get_object_fields models the `get_object_fields` branch:
argument guard, connection guard, then the client method (which may grow
the cache). -/
def branch_get_object_fields (st : ClientState) (args : Args) :
    Except PyError (List TextContent) × Trace × Cache :=
  let objectName := argGet args "object_name"
  if !pyTruthy objectName then
    (.error (.valueError "Missing \x27object_name\x27 argument"), [], st.cache)
  else
    match st.sf with
    | none => (.error connErr, [], st.cache)
    | some _ =>
        let r := get_object_fields st objectName
        match r.res with
        | .error e => (.error e, r.trace, r.st.cache)
        | .ok s =>
            (.ok [⟨pyStr objectName ++ " Metadata (JSON):\n" ++ s⟩],
             r.trace, r.st.cache)

/-- branch_get_record models the `get_record` branch. -/
def branch_get_record (sf : Option Adapter) (args : Args) : BranchOut :=
  let objectName := argGet args "object_name"
  let recordId := argGet args "record_id"
  if !pyTruthy objectName || !pyTruthy recordId then
    (.error (.valueError "Missing \x27object_name\x27 or \x27record_id\x27 argument"), [])
  else
    match sf with
    | none => (.error connErr, [])
    | some a =>
        match objectName with
        | .str _ =>
            (.ok [⟨pyStr objectName ++ " Record (JSON):\n"
                ++ jsonDumps2 (a.get objectName recordId)⟩],
             [.get objectName recordId])
        | _ => (.error getattrErr, [])

/-- branch_create_record models the `create_record` branch. -/
def branch_create_record (sf : Option Adapter) (args : Args) : BranchOut :=
  let objectName := argGet args "object_name"
  let data := argGet args "data"
  if !pyTruthy objectName || !pyTruthy data then
    (.error (.valueError "Missing \x27object_name\x27 or \x27data\x27 argument"), [])
  else
    match sf with
    | none => (.error connErr, [])
    | some a =>
        match objectName with
        | .str _ =>
            (.ok [⟨"Create " ++ pyStr objectName ++ " Record Result (JSON):\n"
                ++ jsonDumps2 (a.create objectName data)⟩],
             [.create objectName data])
        | _ => (.error getattrErr, [])

/-- branch_update_record models the `update_record` branch: the adapter
returns a bare integer status code which is interpolated into the text
without JSON serialization. -/
def branch_update_record (sf : Option Adapter) (args : Args) : BranchOut :=
  let objectName := argGet args "object_name"
  let recordId := argGet args "record_id"
  let data := argGet args "data"
  if !pyTruthy objectName || !pyTruthy recordId || !pyTruthy data then
    (.error (.valueError
        "Missing \x27object_name\x27, \x27record_id\x27, or \x27data\x27 argument"), [])
  else
    match sf with
    | none => (.error connErr, [])
    | some a =>
        match objectName with
        | .str _ =>
            (.ok [⟨"Update " ++ pyStr objectName ++ " Record Result: "
                ++ toString (a.update objectName recordId data)⟩],
             [.update objectName recordId data])
        | _ => (.error getattrErr, [])

/-- branch_delete_record models the `delete_record` branch (raw status
text, like update). -/
def branch_delete_record (sf : Option Adapter) (args : Args) : BranchOut :=
  let objectName := argGet args "object_name"
  let recordId := argGet args "record_id"
  if !pyTruthy objectName || !pyTruthy recordId then
    (.error (.valueError "Missing \x27object_name\x27 or \x27record_id\x27 argument"), [])
  else
    match sf with
    | none => (.error connErr, [])
    | some a =>
        match objectName with
        | .str _ =>
            (.ok [⟨"Delete " ++ pyStr objectName ++ " Record Result: "
                ++ toString (a.delete objectName recordId)⟩],
             [.delete objectName recordId])
        | _ => (.error getattrErr, [])

/-- branch_tooling_execute models the `tooling_execute` branch. -/
def branch_tooling_execute (sf : Option Adapter) (args : Args) : BranchOut :=
  let action := argGet args "action"
  let method := argGetD args "method" (.str "GET")
  let data := argGet args "data"
  if !pyTruthy action then
    (.error (.valueError "Missing \x27action\x27 argument"), [])
  else
    match sf with
    | none => (.error connErr, [])
    | some a =>
        (.ok [⟨"Tooling Execute Result (JSON):\n"
            ++ jsonDumps2 (a.toolingexecute action method data)⟩],
         [.toolingexecute action method data])

/-- branch_apex_execute models the `apex_execute` branch. -/
def branch_apex_execute (sf : Option Adapter) (args : Args) : BranchOut :=
  let action := argGet args "action"
  let method := argGetD args "method" (.str "GET")
  let data := argGet args "data"
  if !pyTruthy action then
    (.error (.valueError "Missing \x27action\x27 argument"), [])
  else
    match sf with
    | none => (.error connErr, [])
    | some a =>
        (.ok [⟨"Apex Execute Result (JSON):\n"
            ++ jsonDumps2 (a.apexecute action method data)⟩],
         [.apexecute action method data])

/-- branch_restful models the `restful` branch. -/
def branch_restful (sf : Option Adapter) (args : Args) : BranchOut :=
  let path := argGet args "path"
  let method := argGetD args "method" (.str "GET")
  let params := argGet args "params"
  let data := argGet args "data"
  if !pyTruthy path then
    (.error (.valueError "Missing \x27path\x27 argument"), [])
  else
    match sf with
    | none => (.error connErr, [])
    | some a =>
        (.ok [⟨"RESTful API Call Result (JSON):\n"
            ++ jsonDumps2 (a.restful path method params data)⟩],
         [.restful path method params data])

/-- branch_list_sobjects models the `list_sobjects` branch. -/
def branch_list_sobjects (sf : Option Adapter) (_args : Args) : BranchOut :=
  match sf with
  | none => (.error connErr, [])
  | some a =>
      let sobjectNames := a.describe_global.map (fun s => s.name)
      (.ok [⟨"Available SObjects (JSON):\n"
          ++ jsonDumps2 (.arr (sobjectNames.map Json.str))⟩],
       [.describe_global])

/-- branch_bulk_create_records models the `bulk_create_records` branch. -/
def branch_bulk_create_records (sf : Option Adapter) (args : Args) : BranchOut :=
  let objectName := argGet args "object_name"
  let recordsData := argGet args "data"
  if !pyTruthy objectName || !pyTruthy recordsData then
    (.error (.valueError
        "Missing \x27object_name\x27 or \x27data\x27 argument for bulk_create_records"), [])
  else
    match sf with
    | none => (.error connErr, [])
    | some a =>
        match recordsData with
        | .arr _ =>
            match objectName with
            | .str _ =>
                (.ok [⟨"Bulk Create " ++ pyStr objectName ++ " Results (JSON):\n"
                    ++ jsonDumps2 (a.bulk_insert objectName recordsData)⟩],
                 [.bulk_insert objectName recordsData])
            | _ => (.error getattrErr, [])
        | _ => (.error (.valueError
            "\x27data\x27 argument must be a list of records for bulk_create_records"), [])

/-- checkBulkUpdateRecords models the per-record validation loop of
`bulk_update_records`: every record must be a dict containing an `Id` key;
the first offender raises. -/
def checkBulkUpdateRecords : List Json → Except PyError Unit
  | [] => .ok ()
  | .obj kvs :: rest =>
      if (kvs.lookup "Id").isSome then checkBulkUpdateRecords rest
      else .error (.valueError
        "Each record in \x27data\x27 must be an object and include an \x27Id\x27 field for bulk updates.")
  | _ :: _ => .error (.valueError
      "Each record in \x27data\x27 must be an object and include an \x27Id\x27 field for bulk updates.")

/-- branch_bulk_update_records models the `bulk_update_records` branch. -/
def branch_bulk_update_records (sf : Option Adapter) (args : Args) : BranchOut :=
  let objectName := argGet args "object_name"
  let recordsData := argGet args "data"
  if !pyTruthy objectName || !pyTruthy recordsData then
    (.error (.valueError
        "Missing \x27object_name\x27 or \x27data\x27 argument for bulk_update_records"), [])
  else
    match sf with
    | none => (.error connErr, [])
    | some a =>
        match recordsData with
        | .arr items =>
            match checkBulkUpdateRecords items with
            | .error e => (.error e, [])
            | .ok _ =>
                match objectName with
                | .str _ =>
                    (.ok [⟨"Bulk Update " ++ pyStr objectName ++ " Results (JSON):\n"
                        ++ jsonDumps2 (a.bulk_update objectName recordsData)⟩],
                     [.bulk_update objectName recordsData])
                | _ => (.error getattrErr, [])
        | _ => (.error (.valueError
            "\x27data\x27 argument must be a list of records for bulk_update_records"), [])

/-- buildBulkDeleteData models the loop of `bulk_delete_records` that maps
each string id `s` to the record `{"Id": s}` in order, raising at the
first non-string item. -/
def buildBulkDeleteData : List Json → Except PyError (List Rec)
  | [] => .ok []
  | .str s :: rest =>
      (buildBulkDeleteData rest).map (fun l => [("Id", Json.str s)] :: l)
  | _ :: _ => .error (.valueError "Each item in \x27record_ids\x27 must be a string ID.")

/-- branch_bulk_delete_records models the `bulk_delete_records` branch. -/
def branch_bulk_delete_records (sf : Option Adapter) (args : Args) : BranchOut :=
  let objectName := argGet args "object_name"
  let recordIds := argGet args "record_ids"
  if !pyTruthy objectName || !pyTruthy recordIds then
    (.error (.valueError
        "Missing \x27object_name\x27 or \x27record_ids\x27 argument for bulk_delete_records"), [])
  else
    match sf with
    | none => (.error connErr, [])
    | some a =>
        match recordIds with
        | .arr items =>
            match buildBulkDeleteData items with
            | .error e => (.error e, [])
            | .ok dataToDelete =>
                match objectName with
                | .str _ =>
                    (.ok [⟨"Bulk Delete " ++ pyStr objectName ++ " Results (JSON):\n"
                        ++ jsonDumps2 (a.bulk_delete objectName dataToDelete)⟩],
                     [.bulk_delete objectName dataToDelete])
                | _ => (.error getattrErr, [])
        | _ => (.error (.valueError
            "\x27record_ids\x27 argument must be a list of strings for bulk_delete_records"), [])

/-- branch_get_record_types models the `get_record_types` branch. -/
def branch_get_record_types (sf : Option Adapter) (args : Args) : BranchOut :=
  let objectName := argGet args "object_name"
  if !pyTruthy objectName then
    (.error (.valueError "Missing \x27object_name\x27 argument"), [])
  else
    match sf with
    | none => (.error connErr, [])
    | some a =>
        let q := "SELECT Id, Name, DeveloperName, Description, IsActive FROM RecordType WHERE SobjectType = \x27"
          ++ pyStr objectName ++ "\x27"
        (.ok [⟨pyStr objectName ++ " Record Types (JSON):\n"
            ++ jsonDumps2 (queryResultJson (a.query q))⟩],
         [.query q])

/-- branch_get_user_permissions models the `get_user_permissions` branch. -/
def branch_get_user_permissions (sf : Option Adapter) (args : Args) : BranchOut :=
  let objectName := argGet args "object_name"
  if !pyTruthy objectName then
    (.error (.valueError "Missing \x27object_name\x27 argument"), [])
  else
    match sf with
    | none => (.error connErr, [])
    | some a =>
        match objectName with
        | .str _ =>
            let dr := a.describe_object objectName
            let permissions : Json := .obj
              [("object_permissions", .obj
                 [("createable", .bool dr.createable),
                  ("deletable", .bool dr.deletable),
                  ("queryable", .bool dr.queryable),
                  ("updateable", .bool dr.updateable),
                  ("retrieveable", .bool dr.retrieveable)]),
               ("field_permissions", .arr (dr.fields.map (fun f => Json.obj
                 [("name", .str f.name), ("label", .str f.label),
                  ("createable", .bool f.createable),
                  ("updateable", .bool f.updateable),
                  ("nillable", .bool f.nillable),
                  ("filterable", .bool f.filterable),
                  ("sortable", .bool f.sortable)])))]
            (.ok [⟨pyStr objectName ++ " User Permissions (JSON):\n"
                ++ jsonDumps2 permissions⟩],
             [.describe objectName])
        | _ => (.error getattrErr, [])

/-- sfToolingexecute models `sf_client.sf.toolingexecute(...)` inside a try
block: a disconnected client raises AttributeError on `None` at the
attribute access, otherwise the oracle call is performed and traced. -/
def sfToolingexecute (sf : Option Adapter) (action method data : Json) :
    Except PyError Json × Trace :=
  match sf with
  | none => (.error (noneAttrErr "toolingexecute"), [])
  | some a => (.ok (a.toolingexecute action method data), [.toolingexecute action method data])

/-- branch_create_custom_field models the `create_custom_field` branch.
The try block only wraps the toolingexecute call, which cannot raise under
the total-oracle model, so the local `except` clause is unreachable here. -/
def branch_create_custom_field (sf : Option Adapter) (args : Args) : BranchOut :=
  let objectName := argGet args "object_name"
  let fieldName := argGet args "field_name"
  let fieldType := argGet args "field_type"
  let fieldLabel := argGet args "field_label"
  if !(pyTruthy objectName && pyTruthy fieldName && pyTruthy fieldType
        && pyTruthy fieldLabel) then
    (.error (.valueError
        "Missing required arguments: object_name, field_name, field_type, field_label"), [])
  else
    match sf with
    | none => (.error connErr, [])
    | some a =>
        let metadata : Rec :=
          [("type", fieldType), ("label", fieldLabel),
           ("required", argGetD args "required" (.bool false)),
           ("unique", argGetD args "unique" (.bool false)),
           ("externalId", argGetD args "external_id" (.bool false))]
        let extra : Rec :=
          match fieldType with
          | .str "Text" => [("length", argGetD args "length" (.num 255))]
          | .str "Number" =>
              [("precision", argGetD args "precision" (.num 18)),
               ("scale", argGetD args "scale" (.num 0))]
          | _ => []
        let fieldDefinition : Json := .obj
          [("FullName", .str (pyStr objectName ++ "." ++ pyStr fieldName ++ "__c")),
           ("Metadata", .obj (metadata ++ extra))]
        (.ok [⟨"Create Custom Field Result (JSON):\n"
            ++ jsonDumps2 (a.toolingexecute (.str "sobjects/CustomField")
                  (.str "POST") fieldDefinition)⟩],
         [.toolingexecute (.str "sobjects/CustomField") (.str "POST") fieldDefinition])

/-- branch_update_custom_field models the `update_custom_field` branch.
The field-id query and its result handling sit outside the try block, so
failures there propagate; only the PATCH call is wrapped (unreachable
under the total-oracle model). -/
def branch_update_custom_field (sf : Option Adapter) (args : Args) : BranchOut :=
  let objectName := argGet args "object_name"
  let fieldName := argGet args "field_name"
  if !(pyTruthy objectName && pyTruthy fieldName) then
    (.error (.valueError "Missing required arguments: object_name, field_name"), [])
  else
    match sf with
    | none => (.error connErr, [])
    | some a =>
        match fieldName with
        | .str fld =>
            let q := "SELECT Id FROM CustomField WHERE TableEnumOrId = \x27"
              ++ pyStr objectName ++ "\x27 AND DeveloperName = \x27"
              ++ (fld.replace "__c" "") ++ "\x27"
            let fieldQuery := a.toolingexecute (.str ("query?q=" ++ q)) (.str "GET") .null
            let t1 : Trace := [.toolingexecute (.str ("query?q=" ++ q)) (.str "GET") .null]
            let rest : BranchOut :=
              step (liftE (pyDictGetE fieldQuery "records")) fun records =>
              if !pyTruthy records then
                (.error (.valueError ("Custom field " ++ pyStr fieldName
                    ++ " not found on " ++ pyStr objectName)), [])
              else
              step (liftE (pyIdxE records 0)) fun r0 =>
              step (liftE (pyKeyE r0 "Id")) fun fieldId =>
              let updateData : Rec :=
                (if (args.lookup "field_label").isSome then
                  [("Label", argGet args "field_label")] else [])
                ++ (if (args.lookup "required").isSome then
                  [("Required", argGet args "required")] else [])
                ++ (if (args.lookup "unique").isSome then
                  [("Unique", argGet args "unique")] else [])
                ++ (if (args.lookup "external_id").isSome then
                  [("ExternalId", argGet args "external_id")] else [])
              if updateData.isEmpty then
                (.error (.valueError "No update fields provided"), [])
              else
                (.ok [⟨"Update Custom Field Result (JSON):\n"
                    ++ jsonDumps2 (a.toolingexecute
                        (.str ("sobjects/CustomField/" ++ pyStr fieldId))
                        (.str "PATCH") (.obj updateData))⟩],
                 [.toolingexecute (.str ("sobjects/CustomField/" ++ pyStr fieldId))
                    (.str "PATCH") (.obj updateData)])
            (rest.1, t1 ++ rest.2)
        | _ =>
            (.error (.attributeError ("\x27" ++ pyTypeName fieldName
                ++ "\x27 object has no attribute \x27replace\x27")), [])

/-- branch_set_field_permissions models the `set_field_permissions` branch:
after the argument guard there is no connection check; everything else sits
inside a try whose except clause downgrades any exception to a successful
error-text response. -/
def branch_set_field_permissions (sf : Option Adapter) (args : Args) : BranchOut :=
  let objectName := argGet args "object_name"
  let fieldName := argGet args "field_name"
  let permissionSetName := argGetD args "permission_set_name" (.str "System Administrator")
  let readable := argGetD args "readable" (.bool true)
  let editable := argGetD args "editable" (.bool true)
  if !pyTruthy objectName || !pyTruthy fieldName then
    (.error (.valueError
        "Missing \x27object_name\x27 or \x27field_name\x27 argument for set_field_permissions"), [])
  else
    let body : BranchOut :=
      step (sfToolingexecute sf
        (.str ("query/?q=SELECT Id,Name,IsOwnedByProfile FROM PermissionSet WHERE Name=\x27"
          ++ pyStr permissionSetName ++ "\x27")) (.str "GET") .null) fun permQuery =>
      step (liftE (pyDictGetE permQuery "records")) fun records =>
      if !pyTruthy records then
        (.ok [⟨"Permission set/profile \x27" ++ pyStr permissionSetName
            ++ "\x27 not found."⟩], [])
      else
      step (liftE (pyIdxE records 0)) fun r0 =>
      step (liftE (pyKeyE r0 "Id")) fun permSetId =>
      step (liftE (pyKeyE r0 "IsOwnedByProfile")) fun isProfile =>
      step (sfToolingexecute sf
        (.str ("query/?q=SELECT Id FROM FieldPermissions WHERE ParentId=\x27"
          ++ pyStr permSetId ++ "\x27 AND Field=\x27" ++ pyStr objectName ++ "."
          ++ pyStr fieldName ++ "\x27")) (.str "GET") .null) fun fieldPermQuery =>
      let fieldPermissionData : Json := .obj
        [("ParentId", permSetId), ("SobjectType", objectName),
         ("Field", .str (pyStr objectName ++ "." ++ pyStr fieldName)),
         ("PermissionsRead", readable), ("PermissionsEdit", editable)]
      step (liftE (pyDictGetE fieldPermQuery "records")) fun frecs =>
      step (if pyTruthy frecs then
              step (liftE (pyIdxE frecs 0)) fun fr0 =>
              step (liftE (pyKeyE fr0 "Id")) fun fieldPermId =>
              step (sfToolingexecute sf
                (.str ("sobjects/FieldPermissions/" ++ pyStr fieldPermId))
                (.str "PATCH") fieldPermissionData) fun result =>
              (.ok (result, "updated"), [])
            else
              step (sfToolingexecute sf (.str "sobjects/FieldPermissions")
                (.str "POST") fieldPermissionData) fun result =>
              (.ok (result, "created"), [])) fun ra =>
      let permissionType := if pyTruthy isProfile then "profile" else "permission set"
      (.ok [⟨"Field permissions " ++ ra.2 ++ " successfully!\n"
          ++ "Field: " ++ pyStr objectName ++ "." ++ pyStr fieldName ++ "\n"
          ++ pyTitle permissionType ++ ": " ++ pyStr permissionSetName ++ "\n"
          ++ "Readable: " ++ pyStr readable ++ "\n"
          ++ "Editable: " ++ pyStr editable ++ "\n"
          ++ "Result: " ++ jsonDumps2 ra.1⟩], [])
    match body with
    | (.error e, t) => (.ok [⟨"Error setting field permissions: " ++ e.msg⟩], t)
    | ok => ok

/-- buildFieldPermsList models the loop over field-permission records in
`get_field_permissions`, building one summary dict per record. -/
def buildFieldPermsList : List Json → Except PyError (List Json)
  | [] => .ok []
  | perm :: rest => do
      let parent ← pyKeyE perm "Parent"
      let isOwned ← pyKeyE parent "IsOwnedByProfile"
      let permissionType := if pyTruthy isOwned then "Profile" else "Permission Set"
      let parentName ← pyKeyE parent "Name"
      let permRead ← pyKeyE perm "PermissionsRead"
      let permEdit ← pyKeyE perm "PermissionsEdit"
      let parentId ← pyKeyE perm "ParentId"
      let item := Json.obj
        [("name", parentName), ("type", .str permissionType),
         ("readable", permRead), ("editable", permEdit), ("id", parentId)]
      let restItems ← buildFieldPermsList rest
      pure (item :: restItems)

/-- branch_get_field_permissions models the `get_field_permissions` branch:
no connection check after the argument guard; any exception in the try is
downgraded to a successful error-text response. -/
def branch_get_field_permissions (sf : Option Adapter) (args : Args) : BranchOut :=
  let objectName := argGet args "object_name"
  let fieldName := argGet args "field_name"
  if !pyTruthy objectName || !pyTruthy fieldName then
    (.error (.valueError
        "Missing \x27object_name\x27 or \x27field_name\x27 argument for get_field_permissions"), [])
  else
    let body : BranchOut :=
      step (sfToolingexecute sf
        (.str ("query/?q=SELECT Id,ParentId,Parent.Name,Parent.IsOwnedByProfile,PermissionsRead,PermissionsEdit,Field FROM FieldPermissions WHERE Field=\x27"
          ++ pyStr objectName ++ "." ++ pyStr fieldName ++ "\x27")) (.str "GET") .null) fun fpq =>
      step (liftE (pyDictGetE fpq "records")) fun recs =>
      if !pyTruthy recs then
        (.ok [⟨"No field permissions found for " ++ pyStr objectName ++ "."
            ++ pyStr fieldName⟩], [])
      else
      step (liftE (pyIterE recs)) fun items =>
      step (liftE (buildFieldPermsList items)) fun permissionsList =>
      (.ok [⟨"Field Permissions for " ++ pyStr objectName ++ "." ++ pyStr fieldName
          ++ ":\n" ++ jsonDumps2 (.arr permissionsList)⟩], [])
    match body with
    | (.error e, t) => (.ok [⟨"Error getting field permissions: " ++ e.msg⟩], t)
    | ok => ok

/-- branch_get_field_details models the `get_field_details` branch: the
client-method call is inside a try whose except clause downgrades any
exception (including the connection ValueError the method raises) to a
successful error-text response. -/
def branch_get_field_details (st : ClientState) (args : Args) : BranchOut :=
  let objectName := argGet args "object_name"
  let fieldName := argGet args "field_name"
  if !pyTruthy objectName || !pyTruthy fieldName then
    (.error (.valueError
        "Missing \x27object_name\x27 or \x27field_name\x27 argument for get_field_details"), [])
  else
    let r := get_field_details st objectName fieldName
    match r.res with
    | .error e => (.ok [⟨"Error getting field details: " ++ e.msg⟩], r.trace)
    | .ok s =>
        (.ok [⟨"Field Details for " ++ pyStr objectName ++ "." ++ pyStr fieldName
            ++ " (JSON):\n" ++ s⟩], r.trace)

/-- csvNeedsQuoting decides whether the csv module (QUOTE_MINIMAL) must
quote a field: it contains the delimiter, the quote character, or a
character of the line terminator. -/
def csvNeedsQuoting (s : String) : Bool :=
  s.data.any (fun c => c = ',' || c = '"' || c = '\n' || c = '\r')

/-- csvQuoteField renders one csv field with minimal quoting, doubling
embedded quote characters. -/
def csvQuoteField (s : String) : String :=
  if csvNeedsQuoting s then
    "\"" ++ String.join (s.data.map (fun c => if c = '"' then "\"\"" else String.mk [c]))
      ++ "\""
  else s

/-- csvCell converts a cell value the way the csv writer does: None becomes
an empty field, everything else is `str(value)`. -/
def csvCell : Json → String
  | .null => ""
  | v => pyStr v

/-- csvHeaderLine models `writer.writeheader()`: the field names as a row,
terminated by the csv default `\r\n`. -/
def csvHeaderLine (fns : List String) : String :=
  String.intercalate "," (fns.map csvQuoteField) ++ "\r\n"

/-- csvRowLine models `writer.writerow(clean_record)` for a DictWriter:
keys outside the field names raise ValueError (extrasaction defaults to
raise); missing keys fall back to the default restval None (empty field). -/
def csvRowLine (fns : List String) (r : Rec) : Except PyError String :=
  let clean := r.filter (fun kv => kv.1 != "attributes")
  let wrong := clean.filter (fun kv => !(fns.contains kv.1))
  if !wrong.isEmpty then
    .error (.valueError "dict contains fields not in fieldnames")
  else
    .ok (String.intercalate ","
      (fns.map (fun f => csvQuoteField (csvCell ((clean.lookup f).getD .null)))) ++ "\r\n")

/-- writeCsvRows writes the record rows in order, stopping at the first
row that raises; the first component is the text written to the buffer
before any failure. -/
def writeCsvRows (fns : List String) : List Rec → String × Option PyError
  | [] => ("", none)
  | r :: rest =>
      match csvRowLine fns r with
      | .error e => ("", some e)
      | .ok line =>
          let acc := writeCsvRows fns rest
          (line ++ acc.1, acc.2)

/-- csvSuccessText is the success message of `export_data_csv`: label,
filename, record count, field names, and a preview of the first 500
characters of the csv content (with a trailing ellipsis when truncated). -/
def csvSuccessText (filename : Json) (numRecords : Nat) (fns : List String)
    (content : String) : String :=
  "CSV Export completed successfully!\n\nFilename: " ++ pyStr filename
    ++ "\nRecords exported: " ++ toString numRecords
    ++ "\nFields: " ++ String.intercalate ", " fns
    ++ "\n\nCSV Content Preview (first 500 chars):\n"
    ++ pyTake content 500 ++ (if pyLen content > 500 then "..." else "")

/-- branch_export_data_csv models the `export_data_csv` branch. The third
component records the contents of the csv StringIO buffer: `none` when no
buffer was ever created (validation failure, disconnected, or the
zero-records early return), `some content` once serialization has run. -/
def branch_export_data_csv (sf : Option Adapter) (args : Args) :
    Except PyError (List TextContent) × Trace × Option String :=
  let query := argGet args "query"
  let filename := argGetD args "filename" (.str "export.csv")
  if !pyTruthy query then
    (.error (.valueError "Missing \x27query\x27 argument for export_data_csv"), [], none)
  else
    match sf with
    | none => (.error connErr, [], none)
    | some a =>
        let results := a.query_all query
        let records := results.records
        match records with
        | [] =>
            (.ok [⟨"No records found for the query. CSV file not created."⟩],
             [.query_all query], none)
        | r0 :: _ =>
            let fieldNames := (r0.map Prod.fst).filter (fun k => k != "attributes")
            let headerLine := csvHeaderLine fieldNames
            let rows := writeCsvRows fieldNames records
            let csvContent := headerLine ++ rows.1
            match rows.2 with
            | some e =>
                (.ok [⟨"Error exporting data to CSV: " ++ e.msg⟩],
                 [.query_all query], some csvContent)
            | none =>
                (.ok [⟨csvSuccessText filename records.length fieldNames csvContent⟩],
                 [.query_all query], some csvContent)

/-- branch_list_reports models the `list_reports` branch (the constructed
reports URL is dead code in the source and likewise unused here). -/
def branch_list_reports (sf : Option Adapter) (args : Args) : BranchOut :=
  let folderId := argGet args "folder_id"
  match sf with
  | none => (.error connErr, [])
  | some a =>
      let _reportsUrl :=
        if pyTruthy folderId then
          "sobjects/Report?q=SELECT Id,Name,DeveloperName,FolderName,Description,LastRunDate FROM Report WHERE FolderId = \x27"
            ++ pyStr folderId ++ "\x27"
        else
          "sobjects/Report?q=SELECT Id,Name,DeveloperName,FolderName,Description,LastRunDate FROM Report"
      let reportsResult :=
        a.query "SELECT Id,Name,DeveloperName,FolderName,Description,LastRunDate FROM Report ORDER BY FolderName, Name"
      let foldersResult :=
        a.query "SELECT Id,Name,DeveloperName,Type FROM Folder WHERE Type = \x27Report\x27 ORDER BY Name"
      let resultData : Json := .obj
        [("reports", .arr (reportsResult.records.map Json.obj)),
         ("folders", .arr (foldersResult.records.map Json.obj)),
         ("total_reports", .num (reportsResult.records.length : Int)),
         ("total_folders", .num (foldersResult.records.length : Int))]
      (.ok [⟨"Reports and Folders (JSON):\n" ++ jsonDumps2 resultData⟩],
       [.query "SELECT Id,Name,DeveloperName,FolderName,Description,LastRunDate FROM Report ORDER BY FolderName, Name",
        .query "SELECT Id,Name,DeveloperName,Type FROM Folder WHERE Type = \x27Report\x27 ORDER BY Name"])

/-- branch_list_users models the `list_users` branch, reproducing the
triple-quoted query text (including its indentation and trailing spaces). -/
def branch_list_users (sf : Option Adapter) (args : Args) : BranchOut :=
  let includeInactive := argGetD args "include_inactive" (.bool false)
  let limit := argGetD args "limit" (.num 100)
  match sf with
  | none => (.error connErr, [])
  | some a =>
      let activeFilter := if pyTruthy includeInactive then "" else "WHERE IsActive = TRUE"
      let q := "\n            SELECT Id, Username, FirstName, LastName, Email, IsActive, \n                   Profile.Name, UserRole.Name, LastLoginDate, CreatedDate\n            FROM User \n            "
        ++ activeFilter
        ++ "\n            ORDER BY LastName, FirstName\n            LIMIT "
        ++ pyStr limit ++ "\n            "
      let usersResult := a.query q
      let countQuery := "SELECT COUNT() FROM User " ++ activeFilter
      let totalCount := (a.query countQuery).totalSize
      let resultData : Json := .obj
        [("users", .arr (usersResult.records.map Json.obj)),
         ("total_count", .num totalCount),
         ("returned_count", .num (usersResult.records.length : Int)),
         ("include_inactive", includeInactive),
         ("limit", limit)]
      (.ok [⟨"Users List (JSON):\n" ++ jsonDumps2 resultData⟩],
       [.query q, .query countQuery])

/-- branch_get_org_limits models the `get_org_limits` branch: the summary
arithmetic on the dynamic limits payload can raise and is downgraded to a
successful error-text response by the local except clause. -/
def branch_get_org_limits (sf : Option Adapter) (_args : Args) : BranchOut :=
  match sf with
  | none => (.error connErr, [])
  | some a =>
      let limits := a.restful (.str "limits") (.str "GET") .null .null
      let t1 : Trace := [.restful (.str "limits") (.str "GET") .null .null]
      let orgInfo := a.query "SELECT Id, Name, OrganizationType, IsSandbox, InstanceName FROM Organization"
      let t2 : Trace := [.query "SELECT Id, Name, OrganizationType, IsSandbox, InstanceName FROM Organization"]
      let organization : Json :=
        match orgInfo.records with
        | [] => .obj []
        | r :: _ => .obj r
      let rest : BranchOut :=
        step (liftE (pyDictGetDE limits "DailyApiRequests" (.obj []))) fun dailyApi =>
        step (liftE (pyDictGetDE dailyApi "Max" (.num 0))) fun apiMax =>
        step (liftE (pyDictGetDE dailyApi "Remaining" (.num 0))) fun apiRem =>
        step (liftE (pySubE apiMax apiRem)) fun apiUsed =>
        step (liftE (pyDictGetDE limits "DataStorageMB" (.obj []))) fun dataMb =>
        step (liftE (pyDictGetDE dataMb "Max" (.num 0))) fun dataMax =>
        step (liftE (pyDictGetDE dataMb "Remaining" (.num 0))) fun dataRem =>
        step (liftE (pySubE dataMax dataRem)) fun dataUsed =>
        let resultData : Json := .obj
          [("organization", organization), ("limits", limits),
           ("summary", .obj
             [("api_requests_used", apiUsed),
              ("api_requests_remaining", apiRem),
              ("api_requests_limit", apiMax),
              ("data_storage_used_mb", dataUsed),
              ("data_storage_remaining_mb", dataRem),
              ("data_storage_limit_mb", dataMax)])]
        (.ok [⟨"Organization Limits and Info (JSON):\n" ++ jsonDumps2 resultData⟩], [])
      let body : BranchOut := (rest.1, t1 ++ t2 ++ rest.2)
      match body with
      | (.error e, t) => (.ok [⟨"Error getting organization limits: " ++ e.msg⟩], t)
      | ok => ok

/-- DispatchOut is the outcome of `handle_call_tool`: the returned content
(or exception), the adapter operations performed, and the
`sobjects_cache` after the call. -/
structure DispatchOut where
  result : Except PyError (List TextContent)
  trace : Trace
  cache : Cache

/-- handle_call_tool models the dispatcher: the elif chain in source
order, ending in `raise ValueError(f"Unknown tool: {name}")`. Only the
`get_object_fields` branch can change the cache. -/
def handle_call_tool (st : ClientState) (name : String) (args : Args) : DispatchOut :=
  if name = "run_soql_query" then
    let b := branch_run_soql_query st.sf args; ⟨b.1, b.2, st.cache⟩
  else if name = "run_sosl_search" then
    let b := branch_run_sosl_search st.sf args; ⟨b.1, b.2, st.cache⟩
  else if name = "get_object_fields" then
    let b := branch_get_object_fields st args; ⟨b.1, b.2.1, b.2.2⟩
  else if name = "get_record" then
    let b := branch_get_record st.sf args; ⟨b.1, b.2, st.cache⟩
  else if name = "create_record" then
    let b := branch_create_record st.sf args; ⟨b.1, b.2, st.cache⟩
  else if name = "update_record" then
    let b := branch_update_record st.sf args; ⟨b.1, b.2, st.cache⟩
  else if name = "delete_record" then
    let b := branch_delete_record st.sf args; ⟨b.1, b.2, st.cache⟩
  else if name = "tooling_execute" then
    let b := branch_tooling_execute st.sf args; ⟨b.1, b.2, st.cache⟩
  else if name = "apex_execute" then
    let b := branch_apex_execute st.sf args; ⟨b.1, b.2, st.cache⟩
  else if name = "restful" then
    let b := branch_restful st.sf args; ⟨b.1, b.2, st.cache⟩
  else if name = "list_sobjects" then
    let b := branch_list_sobjects st.sf args; ⟨b.1, b.2, st.cache⟩
  else if name = "bulk_create_records" then
    let b := branch_bulk_create_records st.sf args; ⟨b.1, b.2, st.cache⟩
  else if name = "bulk_update_records" then
    let b := branch_bulk_update_records st.sf args; ⟨b.1, b.2, st.cache⟩
  else if name = "bulk_delete_records" then
    let b := branch_bulk_delete_records st.sf args; ⟨b.1, b.2, st.cache⟩
  else if name = "get_record_types" then
    let b := branch_get_record_types st.sf args; ⟨b.1, b.2, st.cache⟩
  else if name = "get_user_permissions" then
    let b := branch_get_user_permissions st.sf args; ⟨b.1, b.2, st.cache⟩
  else if name = "create_custom_field" then
    let b := branch_create_custom_field st.sf args; ⟨b.1, b.2, st.cache⟩
  else if name = "update_custom_field" then
    let b := branch_update_custom_field st.sf args; ⟨b.1, b.2, st.cache⟩
  else if name = "set_field_permissions" then
    let b := branch_set_field_permissions st.sf args; ⟨b.1, b.2, st.cache⟩
  else if name = "get_field_permissions" then
    let b := branch_get_field_permissions st.sf args; ⟨b.1, b.2, st.cache⟩
  else if name = "get_field_details" then
    let b := branch_get_field_details st args; ⟨b.1, b.2, st.cache⟩
  else if name = "export_data_csv" then
    let b := branch_export_data_csv st.sf args; ⟨b.1, b.2.1, st.cache⟩
  else if name = "list_reports" then
    let b := branch_list_reports st.sf args; ⟨b.1, b.2, st.cache⟩
  else if name = "list_users" then
    let b := branch_list_users st.sf args; ⟨b.1, b.2, st.cache⟩
  else if name = "get_org_limits" then
    let b := branch_get_org_limits st.sf args; ⟨b.1, b.2, st.cache⟩
  else
    ⟨.error (.valueError ("Unknown tool: " ++ name)), [], st.cache⟩

/-- registeredToolNames lists the tool names `handle_call_tool` handles, in
dispatch order (identical to the names declared by `handle_list_tools`). -/
def registeredToolNames : List String :=
  ["run_soql_query", "run_sosl_search", "get_object_fields", "get_record",
   "create_record", "update_record", "delete_record", "tooling_execute",
   "apex_execute", "restful", "list_sobjects", "bulk_create_records",
   "bulk_update_records", "bulk_delete_records", "get_record_types",
   "get_user_permissions", "create_custom_field", "update_custom_field",
   "set_field_permissions", "get_field_permissions", "get_field_details",
   "export_data_csv", "list_reports", "list_users", "get_org_limits"]

/-- required_args lists, per tool, the arguments its schema marks required
(which coincide with the arguments its first guard checks). -/
def required_args : String → List String
  | "run_soql_query" => ["query"]
  | "run_sosl_search" => ["search"]
  | "get_object_fields" => ["object_name"]
  | "get_record" => ["object_name", "record_id"]
  | "create_record" => ["object_name", "data"]
  | "update_record" => ["object_name", "record_id", "data"]
  | "delete_record" => ["object_name", "record_id"]
  | "tooling_execute" => ["action"]
  | "apex_execute" => ["action"]
  | "restful" => ["path"]
  | "bulk_create_records" => ["object_name", "data"]
  | "bulk_update_records" => ["object_name", "data"]
  | "bulk_delete_records" => ["object_name", "record_ids"]
  | "get_record_types" => ["object_name"]
  | "get_user_permissions" => ["object_name"]
  | "create_custom_field" => ["object_name", "field_name", "field_type", "field_label"]
  | "update_custom_field" => ["object_name", "field_name"]
  | "set_field_permissions" => ["object_name", "field_name"]
  | "get_field_permissions" => ["object_name", "field_name"]
  | "get_field_details" => ["object_name", "field_name"]
  | "export_data_csv" => ["query"]
  | _ => []

/-- toolsWithRequiredArgs lists the registered tools whose schema has at
least one required argument. -/
def toolsWithRequiredArgs : List String :=
  registeredToolNames.filter (fun n => !(required_args n).isEmpty)

/-- missingArgMsg is the exact ValueError message each tool's first guard
raises when a required argument is absent or empty. -/
def missingArgMsg : String → String
  | "run_soql_query" => "Missing \x27query\x27 argument"
  | "run_sosl_search" => "Missing \x27search\x27 argument"
  | "get_object_fields" => "Missing \x27object_name\x27 argument"
  | "get_record" => "Missing \x27object_name\x27 or \x27record_id\x27 argument"
  | "create_record" => "Missing \x27object_name\x27 or \x27data\x27 argument"
  | "update_record" => "Missing \x27object_name\x27, \x27record_id\x27, or \x27data\x27 argument"
  | "delete_record" => "Missing \x27object_name\x27 or \x27record_id\x27 argument"
  | "tooling_execute" => "Missing \x27action\x27 argument"
  | "apex_execute" => "Missing \x27action\x27 argument"
  | "restful" => "Missing \x27path\x27 argument"
  | "bulk_create_records" => "Missing \x27object_name\x27 or \x27data\x27 argument for bulk_create_records"
  | "bulk_update_records" => "Missing \x27object_name\x27 or \x27data\x27 argument for bulk_update_records"
  | "bulk_delete_records" => "Missing \x27object_name\x27 or \x27record_ids\x27 argument for bulk_delete_records"
  | "get_record_types" => "Missing \x27object_name\x27 argument"
  | "get_user_permissions" => "Missing \x27object_name\x27 argument"
  | "create_custom_field" => "Missing required arguments: object_name, field_name, field_type, field_label"
  | "update_custom_field" => "Missing required arguments: object_name, field_name"
  | "set_field_permissions" => "Missing \x27object_name\x27 or \x27field_name\x27 argument for set_field_permissions"
  | "get_field_permissions" => "Missing \x27object_name\x27 or \x27field_name\x27 argument for get_field_permissions"
  | "get_field_details" => "Missing \x27object_name\x27 or \x27field_name\x27 argument for get_field_details"
  | "export_data_csv" => "Missing \x27query\x27 argument for export_data_csv"
  | _ => ""

/-- passesArgGuard decides whether a tool invocation passes its first
(required-argument) guard: every required argument is present and truthy. -/
def passesArgGuard (name : String) (args : Args) : Bool :=
  (required_args name).all (fun r => pyTruthy (argGet args r))

/-- wField builds a witness field descriptor with the given name and label. -/
def wField (nm lbl : String) : RawField :=
  ⟨lbl, nm, true, "string", 255, .arr [], true, false, false, true, false,
   false, false, false, .arr [], .null, true, true⟩

/-- wAdapter is a concrete witness oracle: one Account record with a single
`Id` column, two described fields, and update/delete status 204. -/
def wAdapter : Adapter where
  query_all := fun _ =>
    ⟨1, true, [[("attributes", .obj [("type", .str "Account")]), ("Id", .str "001x")]]⟩
  search := fun _ => .obj []
  query := fun _ => ⟨0, true, []⟩
  describe_object := fun _ =>
    ⟨true, true, true, true, true, [wField "Name" "Account Name", wField "FirstName" "First Name"]⟩
  describe_global := [⟨"Account"⟩]
  get := fun _ _ => .obj []
  create := fun _ _ => .obj []
  update := fun _ _ _ => 204
  delete := fun _ _ => 204
  toolingexecute := fun _ _ _ => .obj []
  apexecute := fun _ _ _ => .obj []
  restful := fun _ _ _ _ => .obj []
  bulk_insert := fun _ _ => .arr []
  bulk_update := fun _ _ => .arr []
  bulk_delete := fun _ _ => .arr []

/-- wAdapterNoRecords is a witness oracle whose queries return no records. -/
def wAdapterNoRecords : Adapter :=
  { wAdapter with query_all := fun _ => ⟨0, true, []⟩ }

/-- lookup_append_left shows a key bound in the left list keeps its binding
after appending on the right. -/
theorem lookup_append_left {α β : Type} [BEq α] (l1 l2 : List (α × β)) (k : α) (v : β)
    (h : l1.lookup k = some v) : (l1 ++ l2).lookup k = some v := by
  induction l1 with
  | nil => simp [List.lookup] at h
  | cons p t ih =>
      obtain ⟨a, b⟩ := p
      by_cases hk : k == a
      · simpa [List.lookup, hk] using h
      · simp only [List.lookup, hk, List.cons_append] at h ⊢
        exact ih h

/-- lookup_append_self shows inserting a fresh key at the end makes it
retrievable. -/
theorem lookup_append_self {α β : Type} [BEq α] [LawfulBEq α]
    (l : List (α × β)) (k : α) (v : β)
    (h : l.lookup k = none) : (l ++ [(k, v)]).lookup k = some v := by
  induction l with
  | nil => simp [List.lookup]
  | cons p t ih =>
      obtain ⟨a, b⟩ := p
      by_cases hk : k == a
      · simp [List.lookup, hk] at h
      · simp only [List.lookup, hk, List.cons_append] at h ⊢
        exact ih h

/-- buildBulkDeleteData_map shows that on a list of string ids the
delete-payload builder succeeds with exactly the order-preserving
`{"Id": s}` mapping. -/
theorem buildBulkDeleteData_map (ids : List String) :
    buildBulkDeleteData (ids.map Json.str)
      = .ok (ids.map (fun s => [("Id", Json.str s)])) := by
  induction ids with
  | nil => rfl
  | cons s t ih => simp [buildBulkDeleteData, ih, Except.map]

/-- get_object_fields_preserves shows the client method never disturbs an
existing cache binding. -/
theorem get_object_fields_preserves (st : ClientState) (objJ : Json)
    (k : String) (v : Json) (h : st.cache.lookup k = some v) :
    (get_object_fields st objJ).st.cache.lookup k = some v := by
  obtain ⟨sf, cache⟩ := st
  cases sf with
  | none => simpa [get_object_fields] using h
  | some a =>
      cases objJ with
      | str obj =>
          rcases hl : cache.lookup obj with _ | w
          · simp only [get_object_fields, hl]
            exact lookup_append_left _ _ _ _ h
          · simpa [get_object_fields, hl] using h
      | null => simpa [get_object_fields] using h
      | bool b => simpa [get_object_fields] using h
      | num n => simpa [get_object_fields] using h
      | arr l => simpa [get_object_fields] using h
      | obj l => simpa [get_object_fields] using h

/-- hct_unknown_eq shows the dispatcher falls through every elif for a name
outside the registered set and raises the unknown-tool ValueError. -/
theorem hct_unknown_eq (st : ClientState) (name : String) (args : Args)
    (h : name ∉ registeredToolNames) :
    handle_call_tool st name args
      = ⟨.error (.valueError ("Unknown tool: " ++ name)), [], st.cache⟩ := by
  simp only [registeredToolNames, List.mem_cons, List.not_mem_nil, or_false, not_or] at h
  obtain ⟨h1, h2, h3, h4, h5, h6, h7, h8, h9, h10, h11, h12, h13, h14, h15,
    h16, h17, h18, h19, h20, h21, h22, h23, h24, h25⟩ := h
  simp [handle_call_tool, h1, h2, h3, h4, h5, h6, h7, h8, h9, h10, h11, h12,
    h13, h14, h15, h16, h17, h18, h19, h20, h21, h22, h23, h24, h25]

/-- C10: for every tool name outside the registered set, `handle_call_tool`
raises `ValueError("Unknown tool: <name>")` for any argument mapping,
contacting no adapter operation (empty trace) and leaving the cache
untouched. -/
theorem c10_unknown_tool (st : ClientState) (name : String) (args : Args)
    (h : name ∉ registeredToolNames) :
    handle_call_tool st name args
      = ⟨.error (.valueError ("Unknown tool: " ++ name)), [], st.cache⟩ :=
  hct_unknown_eq st name args h

/-- Witness for C10 at the concrete unknown name "frobnicate". -/
theorem c10_unknown_tool_witness :
    handle_call_tool ⟨none, []⟩ "frobnicate" []
      = ⟨.error (.valueError ("Unknown tool: " ++ "frobnicate")), [], []⟩ :=
  c10_unknown_tool ⟨none, []⟩ "frobnicate" [] (by decide)

/-- C7: when the adapter update for "Account"/"001x" returns the integer
204, the update_record tool answers exactly
"Update Account Record Result: 204" (raw status, no JSON), with exactly
that one adapter call performed. -/
theorem c7_update_record_raw_status (a : Adapter) (c : Cache) (d : Json)
    (hd : pyTruthy d = true)
    (h204 : a.update (.str "Account") (.str "001x") d = 204) :
    handle_call_tool ⟨some a, c⟩ "update_record"
      [("object_name", .str "Account"), ("record_id", .str "001x"), ("data", d)]
    = ⟨.ok [⟨"Update Account Record Result: 204"⟩],
       [.update (.str "Account") (.str "001x") d], c⟩ := by
  simp [handle_call_tool, branch_update_record, argGet, List.lookup, hd, h204, pyStr]
  exact ⟨rfl, rfl⟩

/-- Witness for C7 at a concrete adapter whose update returns 204. -/
theorem c7_update_record_raw_status_witness :
    handle_call_tool ⟨some wAdapter, []⟩ "update_record"
      [("object_name", .str "Account"), ("record_id", .str "001x"),
       ("data", .obj [("Name", .str "X")])]
    = ⟨.ok [⟨"Update Account Record Result: 204"⟩],
       [.update (.str "Account") (.str "001x") (.obj [("Name", .str "X")])], []⟩ :=
  c7_update_record_raw_status wAdapter [] (.obj [("Name", .str "X")]) rfl rfl

/-- Counterexample to C8 as stated: for the empty list of string record ids
(with a valid object name and a connected adapter) the guard treats the
empty list as a missing argument and raises, so the adapter bulk-delete
operation is never invoked at all (empty trace), instead of being invoked
with the (empty) mapped list. -/
theorem c8_bulk_delete_empty_counterexample :
    handle_call_tool ⟨some wAdapter, []⟩ "bulk_delete_records"
      [("object_name", .str "Account"), ("record_ids", .arr [])]
    = ⟨.error (.valueError
        "Missing \x27object_name\x27 or \x27record_ids\x27 argument for bulk_delete_records"),
       [], []⟩ := rfl

/-- C8 amended: for every non-empty list of string record ids (the empty
list is rejected by the required-argument guard), the adapter bulk-delete
operation is invoked exactly once with the list obtained by mapping each
id s to the record `{"Id": s}`, preserving order and length. -/
theorem c8_bulk_delete_maps_ids (a : Adapter) (c : Cache) (obj : String)
    (ids : List String)
    (hobj : pyTruthy (Json.str obj) = true)
    (hids : ids ≠ []) :
    handle_call_tool ⟨some a, c⟩ "bulk_delete_records"
      [("object_name", .str obj), ("record_ids", .arr (ids.map Json.str))]
    = ⟨.ok [⟨"Bulk Delete " ++ obj ++ " Results (JSON):\n"
          ++ jsonDumps2 (a.bulk_delete (.str obj)
              (ids.map (fun s => [("Id", Json.str s)])))⟩],
       [.bulk_delete (.str obj) (ids.map (fun s => [("Id", Json.str s)]))], c⟩
    ∧ (ids.map (fun s => [("Id", Json.str s)])).length = ids.length := by
  refine ⟨?_, by simp⟩
  have hne : (ids.map Json.str).isEmpty = false := by
    cases ids with
    | nil => exact absurd rfl hids
    | cons x t => rfl
  simp only [pyTruthy] at hobj
  simp [handle_call_tool, branch_bulk_delete_records, argGet, List.lookup,
    hobj, pyTruthy, hne, buildBulkDeleteData_map, pyStr]

/-- Witness for C8 amended at ids ["001x", "001y"]. -/
theorem c8_bulk_delete_maps_ids_witness :
    (handle_call_tool ⟨some wAdapter, []⟩ "bulk_delete_records"
      [("object_name", .str "Account"),
       ("record_ids", .arr (["001x", "001y"].map Json.str))]
    = ⟨.ok [⟨"Bulk Delete " ++ "Account" ++ " Results (JSON):\n"
          ++ jsonDumps2 (wAdapter.bulk_delete (.str "Account")
              (["001x", "001y"].map (fun s => [("Id", Json.str s)])))⟩],
       [.bulk_delete (.str "Account")
          (["001x", "001y"].map (fun s => [("Id", Json.str s)]))], []⟩)
    ∧ ((["001x", "001y"].map (fun s => [("Id", Json.str s)])).length
        = (["001x", "001y"] : List String).length) :=
  c8_bulk_delete_maps_ids wAdapter [] "Account" ["001x", "001y"] rfl (by decide)

/-- C3: with a connected client and an uncached object name, two successive
`get_object_fields` calls perform the describe exactly once (first call
traces it, second call traces nothing), the second call returns the same
result reading the same cached entry, leaves the state untouched, and the
cache holds the filtered field list after the first call. -/
theorem c3_get_object_fields_memoized (a : Adapter) (cache : Cache) (obj : String)
    (h : cache.lookup obj = none) :
    (get_object_fields ⟨some a, cache⟩ (.str obj)).trace = [.describe (.str obj)]
    ∧ (get_object_fields (get_object_fields ⟨some a, cache⟩ (.str obj)).st (.str obj)).trace = []
    ∧ (get_object_fields (get_object_fields ⟨some a, cache⟩ (.str obj)).st (.str obj)).res
        = (get_object_fields ⟨some a, cache⟩ (.str obj)).res
    ∧ (get_object_fields (get_object_fields ⟨some a, cache⟩ (.str obj)).st (.str obj)).st
        = (get_object_fields ⟨some a, cache⟩ (.str obj)).st
    ∧ (get_object_fields ⟨some a, cache⟩ (.str obj)).st.cache.lookup obj
        = some (Json.arr (((a.describe_object (.str obj)).fields).map filteredFieldJson)) := by
  have h2 := lookup_append_self cache obj
    (Json.arr (((a.describe_object (.str obj)).fields).map filteredFieldJson)) h
  simp [get_object_fields, h, h2]

/-- Witness for C3 at the concrete adapter and object name "Account". -/
theorem c3_get_object_fields_memoized_witness :
    (get_object_fields ⟨some wAdapter, []⟩ (.str "Account")).trace
        = [.describe (.str "Account")]
    ∧ (get_object_fields (get_object_fields ⟨some wAdapter, []⟩ (.str "Account")).st
        (.str "Account")).trace = []
    ∧ (get_object_fields (get_object_fields ⟨some wAdapter, []⟩ (.str "Account")).st
        (.str "Account")).res
        = (get_object_fields ⟨some wAdapter, []⟩ (.str "Account")).res
    ∧ (get_object_fields (get_object_fields ⟨some wAdapter, []⟩ (.str "Account")).st
        (.str "Account")).st
        = (get_object_fields ⟨some wAdapter, []⟩ (.str "Account")).st
    ∧ (get_object_fields ⟨some wAdapter, []⟩ (.str "Account")).st.cache.lookup "Account"
        = some (Json.arr (((wAdapter.describe_object (.str "Account")).fields).map
            filteredFieldJson)) :=
  c3_get_object_fields_memoized wAdapter [] "Account" rfl

/-- Counterexample to C5 as stated: with the object "Account" already
present in the cache, `get_field_details` still performs a describe
round-trip (the trace is non-empty), so it does not obtain the metadata
from the ObjectFieldCache on a cache hit. -/
theorem c5_field_details_ignores_cache_counterexample :
    (get_field_details ⟨some wAdapter, [("Account", Json.arr [])]⟩
        (.str "Account") (.str "Name")).trace = [.describe (.str "Account")]
    ∧ (get_field_details ⟨some wAdapter, [("Account", Json.arr [])]⟩
        (.str "Account") (.str "Name")).trace ≠ [] := by
  constructor
  · rfl
  · have hx : (get_field_details ⟨some wAdapter, [("Account", Json.arr [])]⟩
        (.str "Account") (.str "Name")).trace = [.describe (.str "Account")] := rfl
    rw [hx]
    exact List.cons_ne_nil _ _

/-- C5 amended: `get_field_details` never consults the ObjectFieldCache;
on every connected call with a string object name it performs exactly one
describe round-trip, and its outcome is identical for any two cache
contents. -/
theorem c5_field_details_always_describes (a : Adapter) (c1 c2 : Cache)
    (obj : String) (fld : Json) :
    get_field_details ⟨some a, c1⟩ (.str obj) fld
      = get_field_details ⟨some a, c2⟩ (.str obj) fld
    ∧ (get_field_details ⟨some a, c1⟩ (.str obj) fld).trace
      = [.describe (.str obj)] := by
  refine ⟨rfl, ?_⟩
  rcases hf : (a.describe_object (.str obj)).fields with _ | ⟨f0, rest⟩
  · cases fld <;> simp [get_field_details, hf]
  · cases fld <;>
      (simp only [get_field_details, hf]
       all_goals
         first
           | rfl
           | (split <;> rfl))

/-- C6: when no described field of the object matches the requested field
name case-insensitively, `get_field_details` returns a successful
structured miss payload (not a raised error) whose similar_fields list is
`similarFieldsOf`: at most 10 names, each the name of a described field
whose lowercased name contains the lowercased requested name. -/
theorem c6_field_details_miss_payload (a : Adapter) (c : Cache) (obj fld : String)
    (hnomatch : ∀ f ∈ (a.describe_object (.str obj)).fields,
      pyLower f.name ≠ pyLower fld) :
    (get_field_details ⟨some a, c⟩ (.str obj) (.str fld)).res
      = .ok (jsonDumps2 (fieldDetailsMissJson (.str obj) (.str fld)
          (similarFieldsOf a obj fld)))
    ∧ (similarFieldsOf a obj fld).length ≤ 10
    ∧ ∀ n ∈ similarFieldsOf a obj fld,
        ∃ f ∈ (a.describe_object (.str obj)).fields,
          n = f.name ∧ containsSubstr (pyLower f.name) (pyLower fld) = true := by
  refine ⟨?_, ?_, ?_⟩
  · rcases hf : (a.describe_object (.str obj)).fields with _ | ⟨f0, rest⟩
    · simp [get_field_details, hf, similarFieldsOf]
    · have hfind : (f0 :: rest).find? (fun f => pyLower f.name == pyLower fld) = none := by
        rw [List.find?_eq_none]
        intro x hx
        simpa using hnomatch x (hf ▸ hx)
      simp [get_field_details, hf, hfind]
  · simp only [similarFieldsOf]
    exact List.length_take_le 10 _
  · intro n hn
    have hn2 := List.take_subset 10 _ hn
    simp only [List.mem_map, List.mem_filter] at hn2
    obtain ⟨f, ⟨hfmem, hsub⟩, rfl⟩ := hn2
    exact ⟨f, hfmem, rfl, hsub⟩

/-- Witness for C6 at the concrete field name "nam" against the witness
adapter (whose fields are Name and FirstName). -/
theorem c6_field_details_miss_payload_witness :
    (get_field_details ⟨some wAdapter, []⟩ (.str "Account") (.str "nam")).res
      = .ok (jsonDumps2 (fieldDetailsMissJson (.str "Account") (.str "nam")
          (similarFieldsOf wAdapter "Account" "nam")))
    ∧ (similarFieldsOf wAdapter "Account" "nam").length ≤ 10 :=
  ⟨(c6_field_details_miss_payload wAdapter [] "Account" "nam" (by decide)).1,
   (c6_field_details_miss_payload wAdapter [] "Account" "nam" (by decide)).2.1⟩

/-- C2: for every tool with required arguments, an invocation in which some
required argument is absent or empty (falsy) raises that tool's
missing-argument ValueError, with no adapter operation performed and the
cache untouched, whatever the connection state. -/
theorem c2_required_argument_guard (st : ClientState) (name : String) (args : Args)
    (hreg : name ∈ toolsWithRequiredArgs)
    (hmiss : ∃ r ∈ required_args name, pyTruthy (argGet args r) = false) :
    handle_call_tool st name args
      = ⟨.error (.valueError (missingArgMsg name)), [], st.cache⟩ := by
  obtain ⟨r, hr, hv⟩ := hmiss
  fin_cases hreg <;>
    (simp only [required_args] at hr
     fin_cases hr <;>
       simp_all [handle_call_tool, missingArgMsg, branch_run_soql_query,
         branch_run_sosl_search, branch_get_object_fields, branch_get_record,
         branch_create_record, branch_update_record, branch_delete_record,
         branch_tooling_execute, branch_apex_execute, branch_restful,
         branch_bulk_create_records, branch_bulk_update_records,
         branch_bulk_delete_records, branch_get_record_types,
         branch_get_user_permissions, branch_create_custom_field,
         branch_update_custom_field, branch_set_field_permissions,
         branch_get_field_permissions, branch_get_field_details,
         branch_export_data_csv])

/-- Witness for C2: update_record invoked with only object_name present. -/
theorem c2_required_argument_guard_witness :
    handle_call_tool ⟨none, []⟩ "update_record" [("object_name", .str "Account")]
      = ⟨.error (.valueError (missingArgMsg "update_record")), [], []⟩ :=
  c2_required_argument_guard ⟨none, []⟩ "update_record"
    [("object_name", .str "Account")] (by decide) (by decide)

set_option maxHeartbeats 3200000 in
/-- C4: a cache binding, once present, survives every dispatched tool call
unchanged (no tool overwrites, removes or mutates it), and afterwards any
connected `get_object_fields` call for that name returns exactly the
stored filtered list with no describe round-trip, whatever the adapter
(and hence whatever any later describe would return). -/
theorem c4_cache_entry_permanent (st : ClientState) (name : String) (args : Args)
    (k : String) (v : Json) (h : st.cache.lookup k = some v) :
    (handle_call_tool st name args).cache.lookup k = some v
    ∧ ∀ a : Adapter,
        get_object_fields ⟨some a, (handle_call_tool st name args).cache⟩ (.str k)
          = ⟨.ok (jsonDumps2 v), ⟨some a, (handle_call_tool st name args).cache⟩, []⟩ := by
  have key : (handle_call_tool st name args).cache.lookup k = some v := by
    by_cases hreg : name ∈ registeredToolNames
    · fin_cases hreg <;>
        first
          | exact h
          | (show (branch_get_object_fields st args).2.2.lookup k = some v
             simp only [branch_get_object_fields]
             split_ifs
             · exact h
             · rcases hsf : st.sf with _ | a
               · simp only [hsf]; exact h
               · simp only [hsf]
                 rcases hres : (get_object_fields st (argGet args "object_name")).res with e | s
                 · simp only [hres]; exact get_object_fields_preserves st _ k v h
                 · simp only [hres]; exact get_object_fields_preserves st _ k v h)
    · rw [hct_unknown_eq st name args hreg]
      exact h
  refine ⟨key, fun a => ?_⟩
  generalize hC : (handle_call_tool st name args).cache = C at key ⊢
  simp [get_object_fields, key]

/-- Witness for C4: a pre-seeded cache entry survives a list_sobjects call
and is afterwards served from the cache with no describe. -/
theorem c4_cache_entry_permanent_witness :
    (handle_call_tool ⟨none, [("Account", Json.arr [])]⟩ "list_sobjects" []).cache.lookup "Account"
      = some (Json.arr [])
    ∧ get_object_fields
        ⟨some wAdapter,
         (handle_call_tool ⟨none, [("Account", Json.arr [])]⟩ "list_sobjects" []).cache⟩
        (.str "Account")
      = ⟨.ok (jsonDumps2 (Json.arr [])),
         ⟨some wAdapter,
          (handle_call_tool ⟨none, [("Account", Json.arr [])]⟩ "list_sobjects" []).cache⟩, []⟩ :=
  ⟨(c4_cache_entry_permanent ⟨none, [("Account", Json.arr [])]⟩ "list_sobjects" []
      "Account" (Json.arr []) rfl).1,
   (c4_cache_entry_permanent ⟨none, [("Account", Json.arr [])]⟩ "list_sobjects" []
      "Account" (Json.arr []) rfl).2 wAdapter⟩

/-- C9: with a valid query, when the adapter returns zero records the
export tool answers the fixed "no records found" message and never creates
or writes the csv buffer (third component none); when it returns at least
one record and row serialization succeeds, it answers the success text
carrying the record count, the field names and the preview truncated to
the first 500 characters of the csv content. -/
theorem c9_export_data_csv (a : Adapter) (args : Args)
    (hq : pyTruthy (argGet args "query") = true) :
    ((a.query_all (argGet args "query")).records = [] →
      branch_export_data_csv (some a) args
        = (.ok [⟨"No records found for the query. CSV file not created."⟩],
           [.query_all (argGet args "query")], none))
    ∧ (∀ r0 rest, (a.query_all (argGet args "query")).records = r0 :: rest →
        (writeCsvRows ((r0.map Prod.fst).filter (fun k => k != "attributes"))
            (r0 :: rest)).2 = none →
        branch_export_data_csv (some a) args
          = (.ok [⟨csvSuccessText (argGetD args "filename" (.str "export.csv"))
                (r0 :: rest).length
                ((r0.map Prod.fst).filter (fun k => k != "attributes"))
                (csvHeaderLine ((r0.map Prod.fst).filter (fun k => k != "attributes"))
                  ++ (writeCsvRows ((r0.map Prod.fst).filter (fun k => k != "attributes"))
                        (r0 :: rest)).1)⟩],
             [.query_all (argGet args "query")],
             some (csvHeaderLine ((r0.map Prod.fst).filter (fun k => k != "attributes"))
                  ++ (writeCsvRows ((r0.map Prod.fst).filter (fun k => k != "attributes"))
                        (r0 :: rest)).1))) := by
  constructor
  · intro hrec
    simp [branch_export_data_csv, hq, hrec]
  · intro r0 rest hrec herr
    simp [branch_export_data_csv, hq, hrec, herr]

/-- Witness for C9: the zero-record adapter yields the no-records message
with no csv buffer, and the one-record adapter yields the full success
text with the ten-character preview. -/
theorem c9_export_data_csv_witness :
    branch_export_data_csv (some wAdapterNoRecords) [("query", .str "SELECT Id FROM Account")]
      = (.ok [⟨"No records found for the query. CSV file not created."⟩],
         [.query_all (.str "SELECT Id FROM Account")], none)
    ∧ branch_export_data_csv (some wAdapter) [("query", .str "SELECT Id FROM Account")]
      = (.ok [⟨"CSV Export completed successfully!\n\nFilename: export.csv\nRecords exported: 1\nFields: Id\n\nCSV Content Preview (first 500 chars):\nId\r\n001x\r\n"⟩],
         [.query_all (.str "SELECT Id FROM Account")], some "Id\r\n001x\r\n") := by
  constructor
  · exact (c9_export_data_csv wAdapterNoRecords
      [("query", .str "SELECT Id FROM Account")] rfl).1 rfl
  · have h := (c9_export_data_csv wAdapter
      [("query", .str "SELECT Id FROM Account")] rfl).2
      [("attributes", .obj [("type", .str "Account")]), ("Id", .str "001x")] [] rfl rfl
    rw [h]
    rfl

/-- Counterexample to C1 as stated: get_field_details invoked while
disconnected does not fail at all — its try/except catches the connection
ValueError and returns a successful text payload — so it neither raises
the connection error nor any other error. -/
theorem c1_disconnected_counterexample :
    (handle_call_tool ⟨none, []⟩ "get_field_details"
        [("object_name", Json.str "Account"), ("field_name", Json.str "Name")]).result
      = .ok [⟨"Error getting field details: Salesforce connection not established."⟩]
    ∧ (handle_call_tool ⟨none, []⟩ "get_field_details"
        [("object_name", Json.str "Account"), ("field_name", Json.str "Name")]).result
      ≠ .error connErr := by
  constructor
  · rfl
  · intro hcon
    have hx : (handle_call_tool ⟨none, []⟩ "get_field_details"
        [("object_name", Json.str "Account"), ("field_name", Json.str "Name")]).result
      = .ok [⟨"Error getting field details: Salesforce connection not established."⟩] := rfl
    rw [hx] at hcon
    exact Except.noConfusion hcon

/-- disconnectedBehavior describes, per registered tool, the observed
result of a disconnected invocation whose arguments pass the first guard:
most tools raise the connection ValueError; run_soql_query and
run_sosl_search raise an AttributeError on the absent adapter (they have
no connection check); set_field_permissions, get_field_permissions and
get_field_details catch the failure and return a successful error-text
payload instead of failing. -/
def disconnectedBehavior (name : String) (r : Except PyError (List TextContent)) : Prop :=
  if name = "run_soql_query" then r = .error (noneAttrErr "query_all")
  else if name = "run_sosl_search" then r = .error (noneAttrErr "search")
  else if name = "set_field_permissions" ∨ name = "get_field_permissions"
      ∨ name = "get_field_details" then ∃ ts, r = .ok ts
  else r = .error connErr

/-- C1 amended: for every registered tool, invoking it while the adapter is
disconnected (with arguments passing the required-argument guard) never
invokes any backing adapter operation (empty trace) and never changes the
cache; every tool except run_soql_query, run_sosl_search,
set_field_permissions, get_field_permissions and get_field_details fails
with the connection ValueError, the two query tools fail with an
AttributeError instead, and the three catching tools return a successful
error-text payload instead of failing. -/
theorem c1_disconnected_behavior (name : String) (args : Args) (c : Cache)
    (hreg : name ∈ registeredToolNames)
    (hguard : passesArgGuard name args = true) :
    (handle_call_tool ⟨none, c⟩ name args).trace = []
    ∧ (handle_call_tool ⟨none, c⟩ name args).cache = c
    ∧ disconnectedBehavior name (handle_call_tool ⟨none, c⟩ name args).result := by
  fin_cases hreg <;>
    simp_all [passesArgGuard, required_args, disconnectedBehavior,
      handle_call_tool, branch_run_soql_query, branch_run_sosl_search,
      branch_get_object_fields, branch_get_record, branch_create_record,
      branch_update_record, branch_delete_record, branch_tooling_execute,
      branch_apex_execute, branch_restful, branch_list_sobjects,
      branch_bulk_create_records, branch_bulk_update_records,
      branch_bulk_delete_records, branch_get_record_types,
      branch_get_user_permissions, branch_create_custom_field,
      branch_update_custom_field, branch_set_field_permissions,
      branch_get_field_permissions, branch_get_field_details,
      branch_export_data_csv, branch_list_reports, branch_list_users,
      branch_get_org_limits, get_object_fields, get_field_details,
      sfToolingexecute, step, liftE]

/-- Witness for C1 amended: a disconnected update_record call with valid
arguments. -/
theorem c1_disconnected_behavior_witness :
    (handle_call_tool ⟨none, []⟩ "update_record"
        [("object_name", .str "Account"), ("record_id", .str "001x"),
         ("data", .obj [("Name", .str "X")])]).trace = []
    ∧ (handle_call_tool ⟨none, []⟩ "update_record"
        [("object_name", .str "Account"), ("record_id", .str "001x"),
         ("data", .obj [("Name", .str "X")])]).cache = []
    ∧ disconnectedBehavior "update_record"
        (handle_call_tool ⟨none, []⟩ "update_record"
          [("object_name", .str "Account"), ("record_id", .str "001x"),
           ("data", .obj [("Name", .str "X")])]).result :=
  c1_disconnected_behavior "update_record"
    [("object_name", .str "Account"), ("record_id", .str "001x"),
     ("data", .obj [("Name", .str "X")])] [] (by decide) (by decide)
